import Mathlib

/-!
Shallow embedding of the conversation-store / streaming-protocol client of
`src/web/app.js` (PaperMind web frontend).

Modelling conventions:
* The DOM children of `elements.messagesContainer` are modelled structurally as
  a list of `Block`s: user message divs, closed assistant message divs, the
  typing indicator (`#typing-indicator`, which carries class `message assistant`
  and is where appendages of the open turn accumulate), and the welcome banner.
* Appendages inside a `.message-content` (log container, `.tool-call` divs,
  notion-link cards) are kept in DOM child order in a single list; the position
  of the text node relative to the appendages is not tracked because no claim
  inspects it.
* `localStorage` is the `Storage` structure; `JSON.stringify`/`JSON.parse`
  round-trip is identity on the structured values stored here, so storage holds
  the structured values directly.  The `messagesHTML` field stores the block
  list; JavaScript's truthiness test `if (messagesData.messagesHTML)` becomes an
  emptiness test, since `innerHTML` of an empty container is the falsy `""`.
* `Date.now()` is an explicit `now : Nat` argument to every operation that
  reads the clock.
* Pure UI effects (scrolling, focusing, CSS visibility classes such as hiding
  the welcome banner, rendering the sidebar) are not part of the state; button
  visibility/enabled flags that the `done`/stop/send handlers toggle are kept
  because the spec's turn state machine observes them.
* String indexing (`substring`, `length`) is modelled with `String.take` /
  `String.length` over characters; all concrete inputs used in proofs are ASCII
  so the UTF-16 code-unit distinction of JavaScript does not matter.
-/

/-- Message role, the `role` strings `'user'` / `'assistant'` of the source. -/
inductive Role where
  | user
  | assistant
deriving Repr, DecidableEq

/-- An entry of `state.messages`: `{ role, content }` as pushed by `addMessage`. -/
structure Message where
  role : Role
  content : String
deriving Repr, DecidableEq

/-- A `.tool-call` div created by `addToolCall`: `dataset.toolName`, the
optional `tool-call-details` payload, and the status span
(`"running"`/`"completed"`). -/
structure ToolCallDiv where
  toolName : String
  toolArgs : Option String
  status : String
deriving Repr, DecidableEq

/-- An appendage child of a `.message-content`: a log container holding
`(message, level)` entries, a `.tool-call` div, or a notion-link card. -/
inductive Appendage where
  | log (entries : List (String × String))
  | tool (record : ToolCallDiv)
  | link (title : String) (url : String)
deriving Repr, DecidableEq

/-- A child of `elements.messagesContainer`. -/
inductive Block where
  | userMsg (content : String)
  | assistantMsg (appendages : List Appendage) (text : String)
  | typing (appendages : List Appendage)
  | welcome
deriving Repr, DecidableEq

/-- A conversation entry of `state.conversations`. -/
structure Conversation where
  id : String
  title : String
  preview : String
  timestamp : Nat
  lastMessageTime : Nat
deriving Repr, DecidableEq

/-- The object written by `saveMessagesToStorage` under
`chat_messages_<sessionId>`. -/
structure Snapshot where
  sessionId : String
  messages : List Message
  messagesHTML : List Block
  timestamp : Nat
deriving Repr, DecidableEq

/-- The `localStorage` keys owned by the conversation store. -/
structure Storage where
  currentSessionId : Option String
  conversations : Option (List Conversation)
  chatMessages : List (String × Snapshot)
deriving Repr, DecidableEq

/-- The application state: the global `state` object plus the DOM state the
core mutates (message container children, button/input flags). -/
structure AppState where
  processing : Bool
  messages : List Message
  blocks : List Block
  sessionId : String
  conversations : List Conversation
  storage : Storage
  sendBtnHidden : Bool
  stopBtnHidden : Bool
  sendBtnDisabled : Bool
  inputDisabled : Bool
deriving Repr, DecidableEq

/-- A parsed inbound push event (`handleWebSocketMessage`'s `data`). -/
inductive WsEvent where
  | log (message : String) (level : Option String)
  | assistantMessage (message : String)
  | toolCall (toolName : String) (toolArgs : Option String)
  | toolResult (toolName : String) (result : String)
  | notionLink (title : String) (url : String)
  | errorEv (error : String)
  | done
  | other
deriving Repr, DecidableEq

/-- `localStorage.setItem` on a `chat_messages_<k>` key: overwrite or insert. -/
def setSnap : List (String × Snapshot) → String → Snapshot → List (String × Snapshot)
  | [], k, v => [(k, v)]
  | (k', v') :: rest, k, v =>
      if k' = k then (k, v) :: rest else (k', v') :: setSnap rest k v

/-- `localStorage.getItem` on a `chat_messages_<k>` key. -/
def getSnap : List (String × Snapshot) → String → Option Snapshot
  | [], _ => none
  | (k', v') :: rest, k => if k' = k then some v' else getSnap rest k

/-- JavaScript `String.prototype.trim`: strip leading and trailing
whitespace.  (Defined over the character list so that it evaluates inside the
kernel.) -/
def jsTrim (s : String) : String :=
  String.mk (((s.data.dropWhile Char.isWhitespace).reverse.dropWhile
    Char.isWhitespace).reverse)

/-- `generateConversationTitle`: takes the first 30 characters of the trimmed
message, appending `'...'` when the raw message is longer than 30. -/
def generateConversationTitle (firstMessage : String) : String :=
  if firstMessage = "" then "新对话"
  else ((jsTrim firstMessage).take 30) ++ (if 30 < firstMessage.length then "..." else "")

/-- Helper for `addConversationToList`: remove the first conversation with the
given id, returning it (the JS `findIndex` + `splice`). -/
def extractById : List Conversation → String → Option Conversation × List Conversation
  | [], _ => (none, [])
  | c :: rest, sid =>
      if c.id = sid then (some c, rest)
      else
        let p := extractById rest sid
        (p.1, c :: p.2)

/-- `saveConversationList`: persist `state.conversations`. -/
def saveConversationList (st : AppState) : AppState :=
  { st with storage := { st.storage with conversations := some st.conversations } }

/-- `addConversationToList`: upsert a conversation entry and move it to the
head of the list, then persist the list. -/
def addConversationToList (st : AppState) (sessionId title preview : String)
    (now : Nat) : AppState :=
  let p := extractById st.conversations sessionId
  let cs :=
    match p.1 with
    | none => Conversation.mk sessionId title preview now now :: st.conversations
    | some c => { c with title := title, preview := preview, lastMessageTime := now } :: p.2
  saveConversationList { st with conversations := cs }

/-- Helper for rename: update the first conversation with the given id in
place (the JS `find` returns a shared reference that is mutated). -/
def updateFirstById (cs : List Conversation) (sid : String)
    (f : Conversation → Conversation) : List Conversation :=
  match cs with
  | [] => []
  | c :: rest => if c.id = sid then f c :: rest else c :: updateFirstById rest sid f

/-- The `saveEdit` closure of `editConversationTitle`: if the trimmed new
title is non-empty and differs from the current title, update the
conversation's title and `lastMessageTime` in place (its list position is not
changed) and persist the list. -/
def renameConversation (st : AppState) (sessionId newTitleRaw : String)
    (now : Nat) : AppState :=
  match st.conversations.find? (fun c => c.id = sessionId) with
  | none => st
  | some conv =>
      let newTitle := jsTrim newTitleRaw
      if newTitle ≠ "" ∧ newTitle ≠ conv.title then
        saveConversationList
          { st with
            conversations := updateFirstById st.conversations sessionId
              (fun c => { c with title := newTitle, lastMessageTime := now }) }
      else st

/-- `saveMessagesToStorage`: write the snapshot (messages plus the rendered
transcript) under the session-specific key. -/
def saveMessagesToStorage (st : AppState) (now : Nat) : AppState :=
  { st with
    storage :=
      { st.storage with
        chatMessages :=
          setSnap st.storage.chatMessages st.sessionId
            (Snapshot.mk st.sessionId st.messages st.blocks now) } }

/-- `renderMessage`: render a bare message (legacy snapshot path); the
resulting block carries no appendages. -/
def renderMessageBlock (m : Message) : Block :=
  match m.role with
  | Role.user => Block.userMsg m.content
  | Role.assistant => Block.assistantMsg [] m.content

/-- The body of `loadMessagesFromStorage` applied to the looked-up snapshot:
restore `state.messages` and set the container content from the saved HTML;
with no saved HTML (falsy empty string) but non-empty messages, re-render bare
messages (legacy format). -/
def applySnapshot (st : AppState) : Option Snapshot → AppState
  | none => { st with messages := [] }
  | some md =>
      let st1 := { st with messages := md.messages }
      if md.messagesHTML.isEmpty then
        if 0 < st1.messages.length then
          { st1 with blocks := st1.blocks ++ st1.messages.map renderMessageBlock }
        else st1
      else { st1 with blocks := md.messagesHTML }

/-- `loadMessagesFromStorage`: look up the session-specific snapshot and apply
it. -/
def loadMessagesFromStorage (st : AppState) : AppState :=
  applySnapshot st (getSnap st.storage.chatMessages st.sessionId)

/-- Whether a block is the typing indicator (`#typing-indicator`). -/
def isTyping : Block → Bool
  | Block.typing _ => true
  | _ => false

/-- The appendage children of the typing indicator's `.message-content`. -/
def typingApps : Block → List Appendage
  | Block.typing apps => apps
  | _ => []

/-- Replace the first typing indicator (the JS `replaceWith`). -/
def replaceFirstTyping : List Block → Block → List Block
  | [], _ => []
  | b :: rest, nb => if isTyping b then nb :: rest else b :: replaceFirstTyping rest nb

/-- Remove the typing indicator (`removeTypingIndicator`). -/
def removeFirstTyping : List Block → List Block
  | [] => []
  | b :: rest => if isTyping b then rest else b :: removeFirstTyping rest

/-- `removeTypingIndicator`. -/
def removeTypingIndicator (st : AppState) : AppState :=
  { st with blocks := removeFirstTyping st.blocks }

/-- `addTypingIndicator`: append the indicator unless one already exists. -/
def addTypingIndicator (st : AppState) : AppState :=
  if st.blocks.any isTyping then st
  else { st with blocks := st.blocks ++ [Block.typing []] }

/-- Whether an appendage is a log container. -/
def isLogApp : Appendage → Bool
  | Appendage.log _ => true
  | _ => false

/-- The plain message div built by the common path of `addMessage`. -/
def mkPlainBlock : Role → String → Block
  | Role.user, content => Block.userMsg content
  | Role.assistant, content => Block.assistantMsg [] content

/-- The `else` path of `addMessage` (user messages, or assistant messages with
no typing indicator): append a plain message div, push to `state.messages`,
persist; if this is the first user message, derive the conversation
title/preview and upsert the conversation entry. -/
def addMessagePlain (st : AppState) (role : Role) (content : String)
    (now : Nat) : AppState :=
  let st1 := saveMessagesToStorage
    { st with
      blocks := st.blocks ++ [mkPlainBlock role content],
      messages := st.messages ++ [Message.mk role content] } now
  if role = Role.user ∧
      (st1.messages.filter (fun m => m.role = Role.user)).length = 1 then
    addConversationToList st1 st.sessionId (generateConversationTitle content)
      (content.take 50) now
  else st1

/-- `addMessage`: for an assistant message while the typing indicator is
present, build the final assistant div — carrying over only the
`#current-log-container` (tool-call divs and link cards attached to the
indicator are not transplanted) — and replace the indicator with it; otherwise
append a plain message div.  Always pushes to `state.messages` and persists. -/
def addMessage (st : AppState) (role : Role) (content : String)
    (now : Nat) : AppState :=
  if role = Role.assistant then
    match st.blocks.find? isTyping with
    | some t =>
        let transplanted := ((typingApps t).find? isLogApp).toList
        saveMessagesToStorage
          { st with
            blocks := replaceFirstTyping st.blocks
              (Block.assistantMsg transplanted content),
            messages := st.messages ++ [Message.mk role content] } now
    | none => addMessagePlain st role content now
  else addMessagePlain st role content now

/-- Append yet another entry to the first log container in the appendage
list (`#current-log-container` is unique; it is the first and only one). -/
def appendLogEntry : List Appendage → String → String → List Appendage
  | [], _, _ => []
  | Appendage.log entries :: rest, msg, lvl =>
      Appendage.log (entries ++ [(msg, lvl)]) :: rest
  | a :: rest, msg, lvl => a :: appendLogEntry rest msg lvl

/-- `addLogMessage`: append a log entry to the `#current-log-container`; if it
does not exist yet but the typing indicator does, create the container inside
the indicator first; otherwise drop the event. -/
def addLogMessage (st : AppState) (message level : String) (now : Nat) : AppState :=
  match st.blocks.find? isTyping with
  | some t =>
      if (typingApps t).any isLogApp then
        saveMessagesToStorage
          { st with
            blocks := replaceFirstTyping st.blocks
              (Block.typing (appendLogEntry (typingApps t) message level)) } now
      else
        saveMessagesToStorage
          { st with
            blocks := replaceFirstTyping st.blocks
              (Block.typing (typingApps t ++ [Appendage.log [(message, level)]])) } now
  | none => st

/-- `lastMessage.classList.contains('assistant')`: closed assistant divs and
the typing indicator both carry the `assistant` class. -/
def classListContainsAssistant : Block → Bool
  | Block.assistantMsg _ _ => true
  | Block.typing _ => true
  | _ => false

/-- Append an appendage to a block's `.message-content` (`appendChild`). -/
def blockAppendApp : Block → Appendage → Block
  | Block.assistantMsg apps t, a => Block.assistantMsg (apps ++ [a]) t
  | Block.typing apps, a => Block.typing (apps ++ [a])
  | b, _ => b

/-- `addToolCall`: if the container's last child is not an assistant-class
message, return without touching anything; otherwise append a new `.tool-call`
div to it (no lookup of an existing record with the same name) and persist. -/
def addToolCall (st : AppState) (toolName : String) (toolArgs : Option String)
    (status : String) (now : Nat) : AppState :=
  match st.blocks.getLast? with
  | none => st
  | some lastMessage =>
      if classListContainsAssistant lastMessage then
        saveMessagesToStorage
          { st with
            blocks := st.blocks.dropLast ++
              [blockAppendApp lastMessage (Appendage.tool
                (ToolCallDiv.mk toolName toolArgs status))] } now
      else st

/-- The appendage children of a block's `.message-content`. -/
def blockApps : Block → List Appendage
  | Block.assistantMsg apps _ => apps
  | Block.typing apps => apps
  | _ => []

/-- Replace the appendage children of a block's `.message-content`. -/
def setBlockApps : Block → List Appendage → Block
  | Block.assistantMsg _ t, apps => Block.assistantMsg apps t
  | Block.typing _, apps => Block.typing apps
  | b, _ => b

/-- Mark the first `.tool-call` div with the given `dataset.toolName` in an
appendage list as completed; the second component reports whether a match was
found (the JS `break`). -/
def setFirstMatchCompleted : List Appendage → String → List Appendage × Bool
  | [], _ => ([], false)
  | Appendage.tool tc :: rest, n =>
      if tc.toolName = n then
        (Appendage.tool { tc with status := "completed" } :: rest, true)
      else
        let p := setFirstMatchCompleted rest n
        (Appendage.tool tc :: p.1, p.2)
  | a :: rest, n =>
      let p := setFirstMatchCompleted rest n
      (a :: p.1, p.2)

/-- `document.querySelectorAll('.tool-call')` iterates every tool-call div in
document order — across all messages, not only the open one — and the loop
mutates the first one whose name matches, then breaks. -/
def updateFirstToolCallBlocks : List Block → String → List Block
  | [], _ => []
  | b :: rest, n =>
      let p := setFirstMatchCompleted (blockApps b) n
      if p.2 then setBlockApps b p.1 :: rest
      else b :: updateFirstToolCallBlocks rest n

/-- `updateToolCall`: set the first matching tool-call div (document order,
whole transcript) to completed and persist.  The `status` and `result`
arguments are accepted but never read: the status span is set to the completed
text unconditionally and the result payload is discarded. -/
def updateToolCall (st : AppState) (toolName status result : String)
    (now : Nat) : AppState :=
  saveMessagesToStorage
    { st with blocks := updateFirstToolCallBlocks st.blocks toolName } now

/-- `addNotionLink`: same guard as `addToolCall`; append a link card to the
last message if it is assistant-class, else drop the event. -/
def addNotionLink (st : AppState) (title url : String) (now : Nat) : AppState :=
  match st.blocks.getLast? with
  | none => st
  | some lastMessage =>
      if classListContainsAssistant lastMessage then
        saveMessagesToStorage
          { st with
            blocks := st.blocks.dropLast ++
              [blockAppendApp lastMessage (Appendage.link title url)] } now
      else st

/-- `handleWebSocketMessage`: the event dispatcher.  Unknown types fall
through the switch and leave the state unchanged. -/
def handleWebSocketMessage (st : AppState) (data : WsEvent) (now : Nat) : AppState :=
  match data with
  | WsEvent.log message level => addLogMessage st message (level.getD "info") now
  | WsEvent.assistantMessage message => addMessage st Role.assistant message now
  | WsEvent.toolCall toolName toolArgs => addToolCall st toolName toolArgs "running" now
  | WsEvent.toolResult toolName result => updateToolCall st toolName "completed" result now
  | WsEvent.notionLink title url => addNotionLink st title url now
  | WsEvent.errorEv e => addMessage st Role.assistant ("错误: " ++ e) now
  | WsEvent.done =>
      { st with
        processing := false,
        sendBtnHidden := false,
        stopBtnHidden := true,
        sendBtnDisabled := false,
        inputDisabled := false }
  | WsEvent.other => st

/-- `handleStop`: no-op unless processing; otherwise immediately unlock the
turn, remove the typing indicator, restore the buttons, and append the local
stop notice — all before the cancel request is sent.  The
`cancelRequestFails` flag models the outcome of the `/api/cancel-chat` fetch,
whose failure is only logged, so the resulting state does not depend on it. -/
def handleStop (st : AppState) (cancelRequestFails : Bool) (now : Nat) : AppState :=
  if st.processing then
    let st := { st with processing := false }
    let st := removeTypingIndicator st
    let st :=
      { st with
        stopBtnHidden := true,
        sendBtnHidden := false,
        sendBtnDisabled := false,
        inputDisabled := false }
    addMessage st Role.assistant "已停止处理。" now
  else st

/-- The synchronous local part of `handleSend` (everything before the
`/api/chat` response resolves): append the trimmed user message, lock the
input, swap the buttons, set processing, and show the typing indicator. -/
def handleSend (st : AppState) (rawInput : String) (now : Nat) : AppState :=
  let message := jsTrim rawInput
  if message = "" ∨ st.processing then st
  else
    let st := addMessage st Role.user message now
    let st :=
      { st with
        inputDisabled := true,
        sendBtnHidden := true,
        stopBtnHidden := false,
        processing := true }
    addTypingIndicator st

/-- `switchConversation`: no-op when the target is already active (checked
before anything else); otherwise persist the outgoing transcript, swap the
active id, clear the visible transcript, load the target snapshot, show the
welcome banner when empty, and issue the restore-session request.  The second
component reports whether the restore request was issued; its failure is only
logged (`restoreRequestFails` does not influence the state). -/
def switchConversation (st : AppState) (sessionId : String)
    (restoreRequestFails : Bool) (now : Nat) : AppState × Bool :=
  if st.sessionId = sessionId then (st, false)
  else
    let st := if 0 < st.messages.length then saveMessagesToStorage st now else st
    let st :=
      { st with
        sessionId := sessionId,
        storage := { st.storage with currentSessionId := some sessionId } }
    let st := { st with messages := [], blocks := [] }
    let st := loadMessagesFromStorage st
    let st :=
      if st.messages.length = 0 then { st with blocks := st.blocks ++ [Block.welcome] }
      else st
    (st, true)

/-- `newChat` (`createConversation`): switch to a fresh session id (the id is
generated from the clock and `Math.random`; it is a parameter here), clear the
transcript, register the conversation at the head of the list, and show the
welcome banner.  The reset-session request's response is ignored. -/
def newChat (st : AppState) (newSessionId : String) (now : Nat) : AppState :=
  let st :=
    { st with
      sessionId := newSessionId,
      storage := { st.storage with currentSessionId := some newSessionId } }
  let st := { st with messages := [], blocks := [] }
  let st := addConversationToList st newSessionId "新对话" "" now
  { st with blocks := st.blocks ++ [Block.welcome] }

/-- The tool-call records of one appendage. -/
def appendageToolRecords : Appendage → List ToolCallDiv
  | Appendage.tool tc => [tc]
  | _ => []

/-- The tool-call records of an appendage list, in DOM order. -/
def appsToolRecords : List Appendage → List ToolCallDiv
  | [] => []
  | a :: rest => appendageToolRecords a ++ appsToolRecords rest

/-- The tool-call records of one block, in DOM order. -/
def blockToolRecords (b : Block) : List ToolCallDiv :=
  appsToolRecords (blockApps b)

/-- All tool-call records of the transcript in document order. -/
def recordsOf : List Block → List ToolCallDiv
  | [] => []
  | b :: rest => blockToolRecords b ++ recordsOf rest

/-- How many tool-call records with the given name the transcript holds. -/
def countNamed (bs : List Block) (n : String) : Nat :=
  ((recordsOf bs).filter (fun tc => tc.toolName == n)).length

/-- Specification-level description of `updateToolCall`: complete the first
record with the given name, leave everything else alone. -/
def markFirstCompleted : List ToolCallDiv → String → List ToolCallDiv
  | [], _ => []
  | tc :: rest, n =>
      if tc.toolName = n then { tc with status := "completed" } :: rest
      else tc :: markFirstCompleted rest n

/-- The conversation list invariant claimed by the spec: sorted by
`lastMessageTime` descending. -/
def conversationsSorted : List Conversation → Bool
  | [] => true
  | [_] => true
  | a :: b :: rest =>
      decide (b.lastMessageTime ≤ a.lastMessageTime) && conversationsSorted (b :: rest)

/-- An empty `localStorage`. -/
def emptyStorage : Storage := Storage.mk none none []

/-- An idle state with no transcript: no messages, no conversations, send
button visible and enabled, stop button hidden, input enabled. -/
def baseState : AppState :=
  AppState.mk false [] [] "s0" [] emptyStorage false true false false

/-- Happy-path scenario, step 1: `createConversation()` (`newChat`). -/
def happyPath1 : AppState := newChat baseState "s1" 100

/-- Step 2: the user sends `"hello"`. -/
def happyPath2 : AppState := handleSend happyPath1 "hello" 101

/-- Step 3: `{type: tool_call, tool_name: "search"}` arrives. -/
def happyPath3 : AppState :=
  handleWebSocketMessage happyPath2 (WsEvent.toolCall "search" none) 102

/-- Step 4: `{type: tool_result, tool_name: "search"}` arrives. -/
def happyPath4 : AppState :=
  handleWebSocketMessage happyPath3 (WsEvent.toolResult "search" "found") 103

/-- Step 5: `{type: assistant_message, message: "hi"}` arrives. -/
def happyPath5 : AppState :=
  handleWebSocketMessage happyPath4 (WsEvent.assistantMessage "hi") 104

/-- Step 6: `{type: done}` arrives. -/
def happyPathFinal : AppState := handleWebSocketMessage happyPath5 WsEvent.done 105

/-- A mid-turn state with an open (typing-indicator) assistant message. -/
def c1Start : AppState :=
  AppState.mk true [Message.mk Role.user "go"]
    [Block.userMsg "go", Block.typing []]
    "s0" [] emptyStorage true false false true

/-- A sorted two-conversation list; `"a"` is newer than `"b"`. -/
def c3Start : AppState :=
  AppState.mk false [] [] "s0"
    [Conversation.mk "a" "A" "" 10 10, Conversation.mk "b" "B" "" 5 5]
    emptyStorage false true false false

/-- A mid-turn state where an older, closed assistant message already holds a
running record with the same tool name as the open message's record. -/
def c4Start : AppState :=
  AppState.mk true []
    [Block.assistantMsg [Appendage.tool (ToolCallDiv.mk "search" none "running")] "old",
     Block.typing [Appendage.tool (ToolCallDiv.mk "search" none "running")]]
    "s0" [] emptyStorage true false false true

/-- A transcript with messages and appendages for the round-trip witness. -/
def c5Start : AppState :=
  AppState.mk false
    [Message.mk Role.user "hi", Message.mk Role.assistant "ok"]
    [Block.userMsg "hi",
     Block.assistantMsg
       [Appendage.log [("fetching", "info")],
        Appendage.tool (ToolCallDiv.mk "download_pdf" (some "u") "completed"),
        Appendage.link "Paper" "https://notion.example/x"] "ok"]
    "s0" [] emptyStorage false true false false

/-- An open-turn state for the cancel witness. -/
def c7Start : AppState :=
  AppState.mk true [Message.mk Role.user "go"]
    [Block.userMsg "go", Block.typing []]
    "s0" [] emptyStorage true false false true

/-- A state whose last container child is a user message (no open assistant
message). -/
def c10Start : AppState :=
  AppState.mk true [Message.mk Role.user "go"] [Block.userMsg "go"]
    "s0" [] emptyStorage true false false true

/-- `setItem` followed by `getItem` on the same key returns the stored value. -/
theorem getSnap_setSnap (m : List (String × Snapshot)) (k : String) (v : Snapshot) :
    getSnap (setSnap m k v) k = some v := by
  induction m with
  | nil => simp [setSnap, getSnap]
  | cons p rest ih =>
    obtain ⟨k', v'⟩ := p
    by_cases h : k' = k
    · simp [setSnap, getSnap, h]
    · simp [setSnap, getSnap, h, ih]

/-- Persisting a snapshot changes nothing but the storage. -/
theorem saveMessagesToStorage_proj (st : AppState) (now : Nat) :
    (saveMessagesToStorage st now).messages = st.messages
    ∧ (saveMessagesToStorage st now).blocks = st.blocks
    ∧ (saveMessagesToStorage st now).processing = st.processing
    ∧ (saveMessagesToStorage st now).sessionId = st.sessionId
    ∧ (saveMessagesToStorage st now).conversations = st.conversations :=
  ⟨rfl, rfl, rfl, rfl, rfl⟩

/-- `addMessage` always pushes exactly one entry to `state.messages`. -/
theorem addMessagePlain_messages (st : AppState) (role : Role) (content : String)
    (now : Nat) :
    (addMessagePlain st role content now).messages
      = st.messages ++ [Message.mk role content] := by
  unfold addMessagePlain
  dsimp only
  split <;> rfl

/-- `addMessage` always pushes exactly one entry to `state.messages`. -/
theorem addMessage_messages (st : AppState) (role : Role) (content : String)
    (now : Nat) :
    (addMessage st role content now).messages
      = st.messages ++ [Message.mk role content] := by
  unfold addMessage
  split
  · split
    · rfl
    · exact addMessagePlain_messages ..
  · exact addMessagePlain_messages ..

/-- `addMessage` does not touch the turn flag, the buttons, the input lock or
the active session id. -/
theorem addMessage_frame (st : AppState) (role : Role) (content : String)
    (now : Nat) :
    (addMessage st role content now).processing = st.processing
    ∧ (addMessage st role content now).inputDisabled = st.inputDisabled
    ∧ (addMessage st role content now).sendBtnDisabled = st.sendBtnDisabled
    ∧ (addMessage st role content now).sendBtnHidden = st.sendBtnHidden
    ∧ (addMessage st role content now).stopBtnHidden = st.stopBtnHidden
    ∧ (addMessage st role content now).sessionId = st.sessionId := by
  unfold addMessage addMessagePlain
  dsimp only
  split
  · split
    · exact ⟨rfl, rfl, rfl, rfl, rfl, rfl⟩
    · split <;> exact ⟨rfl, rfl, rfl, rfl, rfl, rfl⟩
  · split <;> exact ⟨rfl, rfl, rfl, rfl, rfl, rfl⟩

/-- C8.  A `done` event is idempotent — a second `done` leaves exactly the
state the first one produced — and on a state already in the idle
configuration (not processing, send button shown and enabled, stop button
hidden, input enabled) a `done` event changes nothing at all. -/
theorem C8_done_idempotent (st : AppState) (n1 n2 : Nat) :
    handleWebSocketMessage (handleWebSocketMessage st WsEvent.done n1) WsEvent.done n2
      = handleWebSocketMessage st WsEvent.done n1
    ∧ (st.processing = false → st.sendBtnHidden = false → st.stopBtnHidden = true →
        st.sendBtnDisabled = false → st.inputDisabled = false →
        handleWebSocketMessage st WsEvent.done n1 = st) := by
  constructor
  · rfl
  · intro h1 h2 h3 h4 h5
    cases st
    simp_all [handleWebSocketMessage]

/-- C8 witness: a concrete already-idle state on which `done` is a no-op. -/
theorem C8_done_idempotent_witness :
    handleWebSocketMessage baseState WsEvent.done 1 = baseState :=
  (C8_done_idempotent baseState 1 2).2 rfl rfl rfl rfl rfl

/-- C9.  Switching to the already-active session id returns the state
completely unchanged (transcript, list, storage included) and issues no
restore request (the second component is the issued-request flag). -/
theorem C9_switch_same_id_noop (st : AppState) (sid : String) (fails : Bool)
    (now : Nat) (h : sid = st.sessionId) :
    switchConversation st sid fails now = (st, false) := by
  subst h
  simp [switchConversation]

/-- C9 witness: switching `baseState` to its own session id. -/
theorem C9_switch_same_id_noop_witness :
    "s0" = baseState.sessionId
    ∧ switchConversation baseState "s0" true 4 = (baseState, false) :=
  ⟨rfl, C9_switch_same_id_noop baseState "s0" true 4 rfl⟩

/-- C10.  When the last container child is not an assistant-class message
(or the container is empty), `tool_call` and `notion_link` events are dropped
without any state change — no transcript mutation and no persisted snapshot. -/
theorem C10_drop_without_open_assistant (st : AppState) (n : String)
    (args : Option String) (t u : String) (now now2 : Nat)
    (h : ∀ b, st.blocks.getLast? = some b → classListContainsAssistant b = false) :
    handleWebSocketMessage st (WsEvent.toolCall n args) now = st
    ∧ handleWebSocketMessage st (WsEvent.notionLink t u) now2 = st := by
  constructor
  · show addToolCall st n args "running" now = st
    unfold addToolCall
    split
    · rfl
    · next b heq => rw [h b heq]; rfl
  · show addNotionLink st t u now2 = st
    unfold addNotionLink
    split
    · rfl
    · next b heq => rw [h b heq]; rfl

/-- C10 witness: a state whose last block is a user message drops both
events. -/
theorem C10_drop_without_open_assistant_witness :
    handleWebSocketMessage c10Start (WsEvent.toolCall "search" none) 7 = c10Start
    ∧ handleWebSocketMessage c10Start (WsEvent.notionLink "T" "U") 8 = c10Start :=
  C10_drop_without_open_assistant c10Start "search" none "T" "U" 7 8
    (fun b hb => by cases hb; rfl)

/-- When the last container child is the typing indicator, `addToolCall`
appends one more record to its content and persists. -/
theorem addToolCall_append_typing (st : AppState) (bs : List Block)
    (apps : List Appendage) (n : String) (a : Option String) (s : String)
    (now : Nat) (h : st.blocks = bs ++ [Block.typing apps]) :
    addToolCall st n a s now
      = saveMessagesToStorage
          { st with
            blocks := bs ++ [Block.typing
              (apps ++ [Appendage.tool (ToolCallDiv.mk n a s)])] } now := by
  unfold addToolCall
  split
  · next heq =>
      rw [h, List.getLast?_concat] at heq
      exact Option.noConfusion heq
  · next b heq =>
      rw [h, List.getLast?_concat] at heq
      injection heq with hb
      subst hb
      show saveMessagesToStorage
          { st with
            blocks := st.blocks.dropLast ++
              [blockAppendApp (Block.typing apps)
                (Appendage.tool (ToolCallDiv.mk n a s))] } now = _
      rw [h, List.dropLast_concat]
      rfl

/-- C1 (amended).  A second `tool_call` event with the same tool name on the
open assistant message appends a second record with status `running`; the
first record is left in place, so the message afterwards holds both records
with that name, in arrival order. -/
theorem C1_second_toolCall_appends (st : AppState) (bs : List Block)
    (apps : List Appendage) (n : String) (a1 a2 : Option String) (t1 t2 : Nat)
    (h : st.blocks = bs ++ [Block.typing apps]) :
    (handleWebSocketMessage (handleWebSocketMessage st (WsEvent.toolCall n a1) t1)
        (WsEvent.toolCall n a2) t2).blocks
      = bs ++ [Block.typing (apps
          ++ [Appendage.tool (ToolCallDiv.mk n a1 "running"),
              Appendage.tool (ToolCallDiv.mk n a2 "running")])] := by
  show (addToolCall (addToolCall st n a1 "running" t1) n a2 "running" t2).blocks = _
  rw [addToolCall_append_typing st bs apps n a1 "running" t1 h]
  rw [addToolCall_append_typing _ bs
    (apps ++ [Appendage.tool (ToolCallDiv.mk n a1 "running")]) n a2 "running" t2 rfl]
  show bs ++ [Block.typing ((apps ++ [Appendage.tool (ToolCallDiv.mk n a1 "running")])
      ++ [Appendage.tool (ToolCallDiv.mk n a2 "running")])] = _
  rw [List.append_assoc, List.singleton_append]

/-- C1 witness: the amended behaviour at a concrete open message. -/
theorem C1_second_toolCall_appends_witness :
    c1Start.blocks = [Block.userMsg "go"] ++ [Block.typing []]
    ∧ (handleWebSocketMessage (handleWebSocketMessage c1Start
          (WsEvent.toolCall "search" none) 1) (WsEvent.toolCall "search" none) 2).blocks
        = [Block.userMsg "go"] ++ [Block.typing
            ([] ++ [Appendage.tool (ToolCallDiv.mk "search" none "running"),
                    Appendage.tool (ToolCallDiv.mk "search" none "running")])] :=
  ⟨rfl, C1_second_toolCall_appends c1Start [Block.userMsg "go"] [] "search" none none 1 2 rfl⟩

/-- C1 counterexample: after two `tool_call` events named `"search"` on one
open message, the message holds two records with that name, not exactly one as
the claim states. -/
theorem C1_counterexample :
    countNamed (handleWebSocketMessage (handleWebSocketMessage c1Start
        (WsEvent.toolCall "search" none) 1) (WsEvent.toolCall "search" none) 2).blocks
        "search" = 2
    ∧ ¬ countNamed (handleWebSocketMessage (handleWebSocketMessage c1Start
        (WsEvent.toolCall "search" none) 1) (WsEvent.toolCall "search" none) 2).blocks
        "search" = 1 := by
  decide

/-- `updateFirstById` touches only the fields of the matched element; the
ids, and hence the list positions, are unchanged. -/
theorem updateFirstById_map_id (cs : List Conversation) (sid : String)
    (f : Conversation → Conversation) (hf : ∀ c, (f c).id = c.id) :
    (updateFirstById cs sid f).map Conversation.id = cs.map Conversation.id := by
  induction cs with
  | nil => rfl
  | cons c rest ih =>
    by_cases h : c.id = sid
    · simp [updateFirstById, h, hf]
    · simp [updateFirstById, h, ih]

/-- C3 (amended).  Rename updates the matched conversation in place — it does
not move it or re-sort the list: the sequence of conversation ids is exactly
the one before the rename.  Together with `C3_counterexample` this shows the
sorted-descending invariant is not restored by rename. -/
theorem C3_rename_keeps_positions (st : AppState) (sid t : String) (now : Nat) :
    (renameConversation st sid t now).conversations.map Conversation.id
      = st.conversations.map Conversation.id := by
  unfold renameConversation
  split
  · rfl
  · dsimp only
    split
    · exact updateFirstById_map_id st.conversations sid _ (fun c => rfl)
    · rfl

/-- C3 counterexample: a sorted list stops being sorted by `lastMessageTime`
descending after renaming the older conversation, because rename updates the
time but keeps the position. -/
theorem C3_counterexample :
    conversationsSorted c3Start.conversations = true
    ∧ conversationsSorted (renameConversation c3Start "b" "NewTitle" 20).conversations
        = false := by
  decide

/-- C7.  While a turn is open, stop immediately returns the turn to idle and
appends the locally-authored stop notice, and the resulting state does not
depend on whether the backend cancel request later fails. -/
theorem C7_cancel_immediate (st : AppState) (f1 f2 : Bool) (now : Nat)
    (h : st.processing = true) :
    (handleStop st f1 now).processing = false
    ∧ (handleStop st f1 now).messages
        = st.messages ++ [Message.mk Role.assistant "已停止处理。"]
    ∧ (handleStop st f1 now).inputDisabled = false
    ∧ (handleStop st f1 now).sendBtnDisabled = false
    ∧ handleStop st f1 now = handleStop st f2 now := by
  have hs : ∀ f : Bool, handleStop st f now
      = addMessage
          { st with
            processing := false,
            blocks := removeFirstTyping st.blocks,
            stopBtnHidden := true,
            sendBtnHidden := false,
            sendBtnDisabled := false,
            inputDisabled := false } Role.assistant "已停止处理。" now := by
    intro f
    unfold handleStop removeTypingIndicator
    rw [if_pos h]
  refine ⟨?_, ?_, ?_, ?_, by rw [hs f1, hs f2]⟩
  · rw [hs f1, (addMessage_frame _ _ _ _).1]
  · rw [hs f1, addMessage_messages]
  · rw [hs f1, (addMessage_frame _ _ _ _).2.1]
  · rw [hs f1, (addMessage_frame _ _ _ _).2.2.1]

/-- C7 witness: cancelling a concrete open turn. -/
theorem C7_cancel_immediate_witness :
    c7Start.processing = true
    ∧ ((handleStop c7Start true 5).processing = false
        ∧ (handleStop c7Start true 5).messages
            = c7Start.messages ++ [Message.mk Role.assistant "已停止处理。"]
        ∧ (handleStop c7Start true 5).inputDisabled = false
        ∧ (handleStop c7Start true 5).sendBtnDisabled = false
        ∧ handleStop c7Start true 5 = handleStop c7Start false 5) :=
  ⟨rfl, C7_cancel_immediate c7Start true false 5 rfl⟩

/-- Unfolding lemma: no records in an empty appendage list. -/
@[simp] theorem appsToolRecords_nil : appsToolRecords [] = [] := rfl

/-- Unfolding lemma: records of a cons. -/
@[simp] theorem appsToolRecords_cons (a : Appendage) (apps : List Appendage) :
    appsToolRecords (a :: apps)
      = appendageToolRecords a ++ appsToolRecords apps := rfl

/-- A log container holds no tool-call records. -/
@[simp] theorem appendageToolRecords_log (es : List (String × String)) :
    appendageToolRecords (Appendage.log es) = [] := rfl

/-- A tool-call div is one record. -/
@[simp] theorem appendageToolRecords_tool (tc : ToolCallDiv) :
    appendageToolRecords (Appendage.tool tc) = [tc] := rfl

/-- A link card holds no tool-call records. -/
@[simp] theorem appendageToolRecords_link (t u : String) :
    appendageToolRecords (Appendage.link t u) = [] := rfl

/-- Unfolding lemma: no records in an empty transcript. -/
@[simp] theorem recordsOf_nil : recordsOf [] = [] := rfl

/-- Unfolding lemma: records of a transcript cons. -/
@[simp] theorem recordsOf_cons (b : Block) (bs : List Block) :
    recordsOf (b :: bs) = blockToolRecords b ++ recordsOf bs := rfl

/-- The found-flag of `setFirstMatchCompleted` is exactly "some record in the
list carries the name". -/
theorem setFirstMatchCompleted_found (apps : List Appendage) (n : String) :
    (setFirstMatchCompleted apps n).2
      = (appsToolRecords apps).any (fun tc => tc.toolName == n) := by
  induction apps with
  | nil => rfl
  | cons a rest ih =>
    cases a with
    | log es => simpa [setFirstMatchCompleted] using ih
    | tool tc =>
        by_cases hn : tc.toolName = n
        · simp [setFirstMatchCompleted, hn]
        · simp [setFirstMatchCompleted, hn, ih]
    | link t u => simpa [setFirstMatchCompleted] using ih

/-- With no match, `setFirstMatchCompleted` returns the list unchanged. -/
theorem setFirstMatchCompleted_fst_of_not_found (apps : List Appendage)
    (n : String) (h : (setFirstMatchCompleted apps n).2 = false) :
    (setFirstMatchCompleted apps n).1 = apps := by
  induction apps with
  | nil => rfl
  | cons a rest ih =>
    cases a with
    | log es =>
        have h' : (setFirstMatchCompleted rest n).2 = false := by
          simpa [setFirstMatchCompleted] using h
        simp [setFirstMatchCompleted, ih h']
    | tool tc =>
        by_cases hn : tc.toolName = n
        · simp [setFirstMatchCompleted, hn] at h
        · have h' : (setFirstMatchCompleted rest n).2 = false := by
            simpa [setFirstMatchCompleted, hn] using h
          simp [setFirstMatchCompleted, hn, ih h']
    | link t u =>
        have h' : (setFirstMatchCompleted rest n).2 = false := by
          simpa [setFirstMatchCompleted] using h
        simp [setFirstMatchCompleted, ih h']

/-- With no record carrying the name, `markFirstCompleted` changes nothing. -/
theorem markFirstCompleted_of_none (xs : List ToolCallDiv) (n : String)
    (h : xs.any (fun tc => tc.toolName == n) = false) :
    markFirstCompleted xs n = xs := by
  induction xs with
  | nil => rfl
  | cons x rest ih =>
    simp only [List.any_cons, Bool.or_eq_false_iff] at h
    have hn : ¬ x.toolName = n := by simpa using h.1
    simp [markFirstCompleted, hn, ih h.2]

/-- `markFirstCompleted` acts on the left part when the match is there. -/
theorem markFirstCompleted_append_left (xs ys : List ToolCallDiv) (n : String)
    (h : xs.any (fun tc => tc.toolName == n) = true) :
    markFirstCompleted (xs ++ ys) n = markFirstCompleted xs n ++ ys := by
  induction xs with
  | nil => simp at h
  | cons x rest ih =>
    by_cases hn : x.toolName = n
    · simp [markFirstCompleted, hn]
    · have hx : (x.toolName == n) = false := beq_eq_false_iff_ne.mpr hn
      simp only [List.any_cons, hx, Bool.false_or] at h
      simp [markFirstCompleted, hn, ih h]

/-- `markFirstCompleted` skips the left part when the match is not there. -/
theorem markFirstCompleted_append_right (xs ys : List ToolCallDiv) (n : String)
    (h : xs.any (fun tc => tc.toolName == n) = false) :
    markFirstCompleted (xs ++ ys) n = xs ++ markFirstCompleted ys n := by
  induction xs with
  | nil => rfl
  | cons x rest ih =>
    simp only [List.any_cons, Bool.or_eq_false_iff] at h
    have hn : ¬ x.toolName = n := by simpa using h.1
    simp [markFirstCompleted, hn, ih h.2]

/-- The completed record list produced by `setFirstMatchCompleted` is the
specification-level `markFirstCompleted` of the flattened records. -/
theorem appsToolRecords_setFirst (apps : List Appendage) (n : String)
    (h : (setFirstMatchCompleted apps n).2 = true) :
    appsToolRecords (setFirstMatchCompleted apps n).1
      = markFirstCompleted (appsToolRecords apps) n := by
  induction apps with
  | nil => simp [setFirstMatchCompleted] at h
  | cons a rest ih =>
    cases a with
    | log es =>
        have h' : (setFirstMatchCompleted rest n).2 = true := by
          simpa [setFirstMatchCompleted] using h
        simp [setFirstMatchCompleted, ih h']
    | tool tc =>
        by_cases hn : tc.toolName = n
        · simp [setFirstMatchCompleted, hn, markFirstCompleted]
        · have h' : (setFirstMatchCompleted rest n).2 = true := by
            simpa [setFirstMatchCompleted, hn] using h
          simp [setFirstMatchCompleted, hn, markFirstCompleted, ih h']
    | link t u =>
        have h' : (setFirstMatchCompleted rest n).2 = true := by
          simpa [setFirstMatchCompleted] using h
        simp [setFirstMatchCompleted, ih h']

/-- The found-flag on a block's appendages matches its flattened records. -/
theorem setFirstMatchCompleted_found_block (b : Block) (n : String) :
    (setFirstMatchCompleted (blockApps b) n).2
      = (blockToolRecords b).any (fun tc => tc.toolName == n) :=
  setFirstMatchCompleted_found (blockApps b) n

/-- Setting the appendages of an assistant-class block and flattening gives
the new appendages' records; non-assistant blocks have no records and never
match. -/
theorem blockToolRecords_setBlockApps (b : Block) (apps : List Appendage)
    (h : (setFirstMatchCompleted (blockApps b) n).2 = true) :
    blockToolRecords (setBlockApps b apps) = appsToolRecords apps := by
  cases b with
  | assistantMsg apps0 t => rfl
  | typing apps0 => rfl
  | userMsg c => simp [blockApps, setFirstMatchCompleted] at h
  | welcome => simp [blockApps, setFirstMatchCompleted] at h

/-- `updateToolCall`'s document-wide first-match loop, seen on the flattened
record list: it completes the first record with the given name. -/
theorem recordsOf_updateFirst (bs : List Block) (n : String) :
    recordsOf (updateFirstToolCallBlocks bs n)
      = markFirstCompleted (recordsOf bs) n := by
  induction bs with
  | nil => rfl
  | cons b rest ih =>
    by_cases hf : (setFirstMatchCompleted (blockApps b) n).2 = true
    · have hany : (blockToolRecords b).any (fun tc => tc.toolName == n) = true := by
        rw [← setFirstMatchCompleted_found_block]; exact hf
      simp only [updateFirstToolCallBlocks, hf, if_true, recordsOf_cons]
      rw [blockToolRecords_setBlockApps b _ hf,
        appsToolRecords_setFirst (blockApps b) n hf,
        markFirstCompleted_append_left _ _ _ hany]
      rfl
    · have hf' : (setFirstMatchCompleted (blockApps b) n).2 = false :=
        Bool.not_eq_true _ ▸ Bool.of_not_eq_true hf
      have hany : (blockToolRecords b).any (fun tc => tc.toolName == n) = false := by
        rw [← setFirstMatchCompleted_found_block]; exact hf'
      simp only [updateFirstToolCallBlocks, hf', Bool.false_eq_true, if_false,
        recordsOf_cons]
      rw [ih, markFirstCompleted_append_right _ _ _ hany]

/-- With no matching record anywhere, the loop leaves the transcript's block
list unchanged. -/
theorem updateFirst_no_match (bs : List Block) (n : String)
    (h : (recordsOf bs).any (fun tc => tc.toolName == n) = false) :
    updateFirstToolCallBlocks bs n = bs := by
  induction bs with
  | nil => rfl
  | cons b rest ih =>
    rw [recordsOf_cons, List.any_append, Bool.or_eq_false_iff] at h
    have hf : (setFirstMatchCompleted (blockApps b) n).2 = false := by
      rw [setFirstMatchCompleted_found_block]; exact h.1
    simp [updateFirstToolCallBlocks, hf, ih h.2]

/-- C4 (amended).  A `tool_result` event completes the FIRST record with the
matching name in document order across the whole transcript (which is the open
message's record only when no earlier message holds one with that name); the
event's `result` payload is discarded (the resulting state does not depend on
it); `state.messages` is untouched; and with no matching record anywhere the
block list is returned unchanged (no error — the function is total). -/
theorem C4_toolResult_amended (st : AppState) (n r1 r2 : String) (now : Nat) :
    handleWebSocketMessage st (WsEvent.toolResult n r1) now
        = handleWebSocketMessage st (WsEvent.toolResult n r2) now
    ∧ recordsOf (handleWebSocketMessage st (WsEvent.toolResult n r1) now).blocks
        = markFirstCompleted (recordsOf st.blocks) n
    ∧ (handleWebSocketMessage st (WsEvent.toolResult n r1) now).messages = st.messages
    ∧ ((recordsOf st.blocks).any (fun tc => tc.toolName == n) = false →
        (handleWebSocketMessage st (WsEvent.toolResult n r1) now).blocks = st.blocks) := by
  refine ⟨rfl, ?_, rfl, ?_⟩
  · show recordsOf (updateFirstToolCallBlocks st.blocks n) = _
    exact recordsOf_updateFirst st.blocks n
  · intro h
    show updateFirstToolCallBlocks st.blocks n = st.blocks
    exact updateFirst_no_match st.blocks n h

/-- C4 witness: on a transcript with no matching record the event changes no
block and the result payload makes no difference. -/
theorem C4_toolResult_amended_witness :
    (recordsOf c10Start.blocks).any (fun tc => tc.toolName == "search") = false
    ∧ handleWebSocketMessage c10Start (WsEvent.toolResult "search" "r1") 3
        = handleWebSocketMessage c10Start (WsEvent.toolResult "search" "r2") 3
    ∧ (handleWebSocketMessage c10Start (WsEvent.toolResult "search" "r1") 3).blocks
        = c10Start.blocks :=
  ⟨by decide, (C4_toolResult_amended c10Start "search" "r1" "r2" 3).1,
    (C4_toolResult_amended c10Start "search" "r1" "r2" 3).2.2.2 (by decide)⟩

/-- C4 counterexample: with an older closed message already holding a running
`"search"` record, the `tool_result` completes that older record, not the open
message's record — the open (typing) message's record stays `"running"`,
contradicting the claim that the open message's matching record is set to
completed. -/
theorem C4_counterexample :
    (handleWebSocketMessage c4Start (WsEvent.toolResult "search" "res") 5).blocks
      = [Block.assistantMsg
          [Appendage.tool (ToolCallDiv.mk "search" none "completed")] "old",
         Block.typing [Appendage.tool (ToolCallDiv.mk "search" none "running")]]
    ∧ ¬ (handleWebSocketMessage c4Start (WsEvent.toolResult "search" "res") 5).blocks
      = [Block.assistantMsg
          [Appendage.tool (ToolCallDiv.mk "search" none "running")] "old",
         Block.typing [Appendage.tool (ToolCallDiv.mk "search" none "completed")]] := by
  decide

/-- C5.  Round trip: persisting a transcript and restoring it into a cleared
view yields the same messages and the same rendered blocks (hence the same
appendages in the same order).  The hypothesis — an empty rendered transcript
only with an empty message list — holds for every state the store produces,
since each pushed message also appends a block. -/
theorem C5_persist_restore_roundtrip (st : AppState) (now : Nat)
    (h : st.blocks = [] → st.messages = []) :
    (loadMessagesFromStorage
        { saveMessagesToStorage st now with messages := [], blocks := [] }).messages
      = st.messages
    ∧ (loadMessagesFromStorage
        { saveMessagesToStorage st now with messages := [], blocks := [] }).blocks
      = st.blocks := by
  have hkey : getSnap ({ saveMessagesToStorage st now with
          messages := [], blocks := [] } : AppState).storage.chatMessages
        ({ saveMessagesToStorage st now with
          messages := [], blocks := [] } : AppState).sessionId
      = some (Snapshot.mk st.sessionId st.messages st.blocks now) :=
    getSnap_setSnap st.storage.chatMessages st.sessionId _
  unfold loadMessagesFromStorage
  rw [hkey]
  by_cases hb : st.blocks.isEmpty
  · have hbe : st.blocks = [] := List.isEmpty_iff.mp hb
    have hm : st.messages = [] := h hbe
    constructor <;> simp [applySnapshot, hbe, hm]
  · have hb' : st.blocks.isEmpty = false := Bool.of_not_eq_true hb
    constructor <;> simp [applySnapshot, hb']

/-- C5 witness: a concrete transcript with both message kinds and all three
appendage kinds survives the round trip. -/
theorem C5_persist_restore_roundtrip_witness :
    (c5Start.blocks = [] → c5Start.messages = [])
    ∧ ((loadMessagesFromStorage
          { saveMessagesToStorage c5Start 9 with messages := [], blocks := [] }).messages
        = c5Start.messages
      ∧ (loadMessagesFromStorage
          { saveMessagesToStorage c5Start 9 with messages := [], blocks := [] }).blocks
        = c5Start.blocks) :=
  ⟨by decide, C5_persist_restore_roundtrip c5Start 9 (by decide)⟩

/-- The upserted conversation always ends up at the head of the list with the
given title and preview. -/
theorem addConversationToList_head_title (st : AppState)
    (sid title preview : String) (now : Nat) :
    (addConversationToList st sid title preview now).conversations.head?.map
      (fun c => (c.title, c.preview)) = some (title, preview) := by
  unfold addConversationToList saveConversationList
  dsimp only
  split <;> rfl

/-- C6.  For the first user message of a conversation whose content is longer
than the 30-character budget, the derived title is the first 30 characters of
the content followed by the `'...'` marker and the derived preview is the
first 50 characters, both stored on the conversation entry at the head of the
list; and a further user message does not change the conversation list (title
and preview are derived only for the first user message).  The hypothesis
`jsTrim content = content` holds for every appended message because
`handleSend` trims the input before calling `addMessage`. -/
theorem C6_title_derivation (st : AppState) (content : String) (now : Nat)
    (htrim : jsTrim content = content) (hlen : 30 < content.length)
    (hfirst : (st.messages.filter (fun m => m.role = Role.user)).length = 0) :
    ((addMessage st Role.user content now).conversations.head?.map
        (fun c => (c.title, c.preview))
      = some (content.take 30 ++ "...", content.take 50))
    ∧ (∀ c2 n2,
        (addMessage (addMessage st Role.user content now) Role.user c2 n2).conversations
          = (addMessage st Role.user content now).conversations) := by
  have htitle : generateConversationTitle content = content.take 30 ++ "..." := by
    have hne : ¬ content = "" := by
      intro h0
      rw [h0] at hlen
      simp at hlen
    unfold generateConversationTitle
    rw [if_neg hne, htrim, if_pos hlen]
  have hplain : addMessage st Role.user content now
      = addMessagePlain st Role.user content now := rfl
  have hguard : Role.user = Role.user ∧
      ((saveMessagesToStorage
          { st with
            blocks := st.blocks ++ [mkPlainBlock Role.user content],
            messages := st.messages ++ [Message.mk Role.user content] } now).messages.filter
        (fun m => m.role = Role.user)).length = 1 := by
    refine ⟨rfl, ?_⟩
    show ((st.messages ++ [Message.mk Role.user content]).filter
        (fun m => m.role = Role.user)).length = 1
    rw [List.filter_append, List.length_append, hfirst]
    rfl
  have hstep : addMessagePlain st Role.user content now
      = addConversationToList
          (saveMessagesToStorage
            { st with
              blocks := st.blocks ++ [mkPlainBlock Role.user content],
              messages := st.messages ++ [Message.mk Role.user content] } now)
          st.sessionId (generateConversationTitle content) (content.take 50) now := by
    unfold addMessagePlain
    dsimp only
    rw [if_pos hguard]
  constructor
  · rw [hplain, hstep, addConversationToList_head_title, htitle]
  · intro c2 n2
    have hm1 : (addMessage st Role.user content now).messages
        = st.messages ++ [Message.mk Role.user content] :=
      addMessage_messages st Role.user content now
    have hcnt : (((addMessage st Role.user content now).messages
          ++ [Message.mk Role.user c2]).filter
        (fun m => m.role = Role.user)).length = 2 := by
      rw [hm1, List.filter_append, List.filter_append, List.length_append,
        List.length_append, hfirst]
      rfl
    have h2 : addMessage (addMessage st Role.user content now) Role.user c2 n2
        = addMessagePlain (addMessage st Role.user content now) Role.user c2 n2 := rfl
    rw [h2]
    unfold addMessagePlain
    dsimp only
    split
    · next hcond => exact absurd (hcnt.symm.trans hcond.2) (by decide)
    · rfl

/-- C6 witness: the spec's example sentence (57 characters). -/
theorem C6_title_derivation_witness :
    jsTrim "Explain transformer attention mechanisms in detail please"
        = "Explain transformer attention mechanisms in detail please"
    ∧ 30 < ("Explain transformer attention mechanisms in detail please" : String).length
    ∧ (baseState.messages.filter (fun m => m.role = Role.user)).length = 0
    ∧ ((addMessage baseState Role.user
          "Explain transformer attention mechanisms in detail please" 3).conversations.head?.map
        (fun c => (c.title, c.preview))
      = some (("Explain transformer attention mechanisms in detail please" : String).take 30
                ++ "...",
              ("Explain transformer attention mechanisms in detail please" : String).take 50)) :=
  ⟨by decide, by decide, rfl,
    (C6_title_derivation baseState
      "Explain transformer attention mechanisms in detail please" 3
      (by decide) (by decide) rfl).1⟩

/-- C2 counterexample: running the happy-path scenario, the final transcript
has the expected user and assistant messages and an idle turn, but the
assistant message carries NO tool-call record at all — there is no completed
`"search"` record, contradicting the claimed final transcript. -/
theorem C2_counterexample :
    happyPathFinal.messages
        = [Message.mk Role.user "hello", Message.mk Role.assistant "hi"]
    ∧ happyPathFinal.processing = false
    ∧ recordsOf happyPathFinal.blocks = []
    ∧ ¬ countNamed happyPathFinal.blocks "search" = 1 := by
  decide

/-- C2 (amended).  In the happy-path scenario the `"search"` record is created
with status running on the open (typing-indicator) message and completed by
the `tool_result`, but when the final assistant text `"hi"` arrives the open
message is replaced by a fresh div that carries over only the log container,
so the record is discarded: the final state is one user message `"hello"`, one
assistant message `"hi"` with no tool-call records, and an idle, re-enabled
turn. -/
theorem C2_happy_path_amended :
    happyPath3.blocks.getLast?
        = some (Block.typing [Appendage.tool (ToolCallDiv.mk "search" none "running")])
    ∧ happyPath4.blocks.getLast?
        = some (Block.typing [Appendage.tool (ToolCallDiv.mk "search" none "completed")])
    ∧ happyPathFinal.messages
        = [Message.mk Role.user "hello", Message.mk Role.assistant "hi"]
    ∧ happyPathFinal.blocks
        = [Block.welcome, Block.userMsg "hello", Block.assistantMsg [] "hi"]
    ∧ happyPathFinal.processing = false
    ∧ happyPathFinal.inputDisabled = false
    ∧ happyPathFinal.sendBtnDisabled = false := by
  decide
